import Mathlib

/-!
Shallow embedding of the two-party chat core of UNOTE-0.3.1
(src/components/messaging/ChatView.tsx): conversation-id derivation,
the live-subscription state updates, and the send protocol with its
atomic dual write, optimistic clear and revert.
-/

namespace UNote

/-- The local component state of `ChatView`: the six `useState` cells
`messages`, `newMessage`, `isLoading`, `isSending`, `fetchError`, `sendError`. -/
structure Msg where
  id : String
  senderId : String
  text : String
  createdAt : Nat
deriving DecidableEq

structure ChatState where
  messages : List Msg
  newMessage : String
  isLoading : Bool
  isSending : Bool
  fetchError : Option String
  sendError : Option String
deriving DecidableEq

/-- Lexicographic comparison of character lists, mirroring the default
JavaScript `Array.prototype.sort` comparator on two strings (code-unit
lexicographic order). -/
def lexLt : List Char → List Char → Bool
  | [], [] => false
  | [], _ :: _ => true
  | _ :: _, [] => false
  | a :: as, b :: bs => if a < b then true else if b < a then false else lexLt as bs

/-- `getChatId` on character lists: `[uid1, uid2].sort().join('_')`. -/
def getChatIdL (u v : List Char) : List Char :=
  if lexLt v u then v ++ '_' :: u else u ++ '_' :: v

/-- `getChatId` from ChatView.tsx: sort the two uids and join with `_`. -/
def getChatId (uid1 uid2 : String) : String :=
  ⟨getChatIdL uid1.data uid2.data⟩

lemma lexLt_asymm : ∀ {u v : List Char}, lexLt u v = true → lexLt v u = false := by
  intro u
  induction u with
  | nil => intro v; cases v <;> simp [lexLt]
  | cons a as ih =>
    intro v
    cases v with
    | nil => simp [lexLt]
    | cons b bs =>
      by_cases hab : a < b
      · simp [lexLt, hab, asymm hab]
      · by_cases hba : b < a
        · simp [lexLt, hab, hba]
        · have heq : a = b := le_antisymm (not_lt.mp hba) (not_lt.mp hab)
          subst heq
          simpa [lexLt] using ih

lemma lexLt_conn : ∀ {u v : List Char}, lexLt u v = false → lexLt v u = false → u = v := by
  intro u
  induction u with
  | nil => intro v; cases v <;> simp [lexLt]
  | cons a as ih =>
    intro v
    cases v with
    | nil => simp [lexLt]
    | cons b bs =>
      by_cases hab : a < b
      · simp [lexLt, hab]
      · by_cases hba : b < a
        · simp [lexLt, hab, hba]
        · have heq : a = b := le_antisymm (not_lt.mp hba) (not_lt.mp hab)
          subst heq
          intro h1 h2
          simp only [lexLt, lt_irrefl, if_false] at h1 h2
          exact congrArg (a :: ·) (ih h1 h2)

lemma getChatIdL_comm (u v : List Char) : getChatIdL u v = getChatIdL v u := by
  unfold getChatIdL
  cases h1 : lexLt v u <;> cases h2 : lexLt u v <;> simp
  · rw [lexLt_conn h2 h1]
  · exact absurd (lexLt_asymm h2) (by simp [h1])

lemma getChatId_comm (a b : String) : getChatId a b = getChatId b a :=
  congrArg String.mk (getChatIdL_comm a.data b.data)

/-- A string of the shape `x ++ '_' :: y` with separator-free `x` splits
uniquely at the separator. -/
lemma append_sep_inj : ∀ (x : List Char) {y : List Char} (x' : List Char) {y' : List Char},
    '_' ∉ x → '_' ∉ x' → x ++ '_' :: y = x' ++ '_' :: y' → x = x' ∧ y = y' := by
  intro x
  induction x with
  | nil =>
    intro y x' y' _ hx' h
    cases x' with
    | nil => simpa using h
    | cons b bs =>
      simp only [List.nil_append, List.cons_append, List.cons.injEq] at h
      exact absurd (by rw [← h.1]; exact List.mem_cons_self _ _) hx'
  | cons a as ih =>
    intro y x' y' hx hx' h
    cases x' with
    | nil =>
      simp only [List.nil_append, List.cons_append, List.cons.injEq] at h
      exact absurd (by rw [h.1]; exact List.mem_cons_self _ _) hx
    | cons b bs =>
      simp only [List.cons_append, List.cons.injEq] at h
      obtain ⟨hab, ht⟩ := h
      have hx2 : '_' ∉ as := fun hm => hx (List.mem_cons_of_mem _ hm)
      have hx2' : '_' ∉ bs := fun hm => hx' (List.mem_cons_of_mem _ hm)
      obtain ⟨h1, h2⟩ := ih bs hx2 hx2' ht
      exact ⟨by rw [hab, h1], h2⟩

/-- When none of the three identifiers contains the separator, `getChatIdL`
is injective in its second argument. -/
lemma getChatIdL_inj2 {u v w : List Char} (hu : '_' ∉ u) (hv : '_' ∉ v) (hw : '_' ∉ w)
    (h : getChatIdL u v = getChatIdL u w) : v = w := by
  unfold getChatIdL at h
  split at h <;> split at h
  · exact (append_sep_inj v w hv hw h).1
  · obtain ⟨h1, h2⟩ := append_sep_inj v u hv hu h
    exact h1.trans h2
  · obtain ⟨h1, h2⟩ := append_sep_inj u w hu hw h
    exact h2.trans h1
  · exact (append_sep_inj u u hu hu h).2

lemma string_data_inj {a b : String} (h : a.data = b.data) : a = b := by
  cases a; cases b
  exact congrArg String.mk h

/-- JavaScript `String.prototype.trim`: drop whitespace from both ends.
Defined over the character list so that it is kernel-executable. -/
def jsTrim (s : String) : String :=
  ⟨((s.data.dropWhile Char.isWhitespace).reverse.dropWhile Char.isWhitespace).reverse⟩

/-- The user-facing message set by the subscription error handler. -/
def fetchErrorMsg : String := "Не удалось загрузить сообщения."

/-- The user-facing message for an access-denied send failure. -/
def sendAccessErrorMsg : String := "Ошибка прав доступа. Попробуйте обновить страницу."

/-- The user-facing message for any other send failure. -/
def sendErrorMsg : String := "Не удалось отправить сообщение."

/-- The `onSnapshot` success callback: replace `messages` with the delivered
list, clear `fetchError`, end loading. -/
def onSnapshotData (docs : List Msg) (s : ChatState) : ChatState :=
  { s with messages := docs, fetchError := none, isLoading := false }

/-- The `onSnapshot` error callback: a `permission-denied` code empties the
message list and leaves `fetchError` null; any other code sets `fetchError`;
both end loading. -/
def onSnapshotError (code : String) (s : ChatState) : ChatState :=
  if code = "permission-denied" then
    { s with messages := [], fetchError := none, isLoading := false }
  else
    { s with fetchError := some fetchErrorMsg, isLoading := false }

/-- The individually observable steps of the subscription `useEffect`:
React runs the previous effect's cleanup (`unsubscribe`), then the new
effect body (`setIsLoading(true)`, `setFetchError(null)`, `onSnapshot`). -/
inductive SubAction where
  | unsubscribe (chatId : String)
  | setLoadingTrue
  | clearFetchError
  | subscribe (chatId : String)
deriving DecidableEq

/-- The ordered action trace produced when the `chatId` dependency of the
subscription effect changes from `oldId` to `newId`. -/
def effectRerun (oldId newId : String) : List SubAction :=
  [.unsubscribe oldId, .setLoadingTrue, .clearFetchError, .subscribe newId]

def applySubAction (a : SubAction) (s : ChatState) : ChatState :=
  match a with
  | .unsubscribe _ => s
  | .setLoadingTrue => { s with isLoading := true }
  | .clearFetchError => { s with fetchError := none }
  | .subscribe _ => s

def applySubActions (l : List SubAction) (s : ChatState) : ChatState :=
  l.foldl (fun st a => applySubAction a st) s

/-- `serverTimestamp()` sentinel: the field value is assigned by the server
at commit time, not by the client. -/
inductive TsField where
  | server
deriving DecidableEq

/-- The first write of the batch: `batch.set(chatDocRef, {...}, { merge: true })`. -/
structure MetaWrite where
  participants : List String
  lastMessageText : String
  lastMessageTimestamp : TsField
deriving DecidableEq

/-- The second write of the batch: `batch.set(messageDocRef, {...})`. -/
structure MsgWrite where
  senderId : String
  text : String
  createdAt : TsField
deriving DecidableEq

/-- The single `writeBatch` built by `handleSendMessage`. -/
structure Batch where
  metaSet : MetaWrite
  metaMerge : Bool
  msgAppend : MsgWrite
deriving DecidableEq

/-- The synchronous head of `handleSendMessage`, up to `batch.commit()`:
the guard, the optimistic state changes, and the batch it submits together
with the captured trimmed text. Returns `none` in place of a batch when the
guard short-circuits. -/
def sendStart (curUid partnerUid : String) (s : ChatState) : ChatState × Option (String × Batch) :=
  if jsTrim s.newMessage = "" ∨ s.isSending = true then (s, none)
  else
    ({ s with isSending := true, sendError := none, newMessage := "" },
     some (jsTrim s.newMessage,
       { metaSet := { participants := [curUid, partnerUid],
                      lastMessageText := jsTrim s.newMessage,
                      lastMessageTimestamp := .server },
         metaMerge := true,
         msgAppend := { senderId := curUid,
                        text := jsTrim s.newMessage,
                        createdAt := .server } }))

/-- Resolution of `batch.commit()`. -/
inductive SendOutcome where
  | ok
  | err (code : String)
deriving DecidableEq

/-- The `catch` block's error classification. -/
def classifySendError (code : String) : String :=
  if code = "permission-denied" then sendAccessErrorMsg else sendErrorMsg

/-- The resumption of `handleSendMessage` after `batch.commit()` resolves:
the `catch` block (revert the draft to the captured text, classify the
error) and the `finally` block (`setIsSending(false)`). -/
def sendFinish (textToSend : String) (o : SendOutcome) (s : ChatState) : ChatState :=
  match o with
  | .ok => { s with isSending := false }
  | .err code =>
      { s with newMessage := textToSend,
               sendError := some (classifySendError code),
               isSending := false }

/-- A conversation-metadata document in the store; `extra` stands for any
unrelated fields an existing document may hold, which a merge-set preserves. -/
structure MetaDoc where
  participants : List String
  lastMessageText : String
  lastMessageTimestamp : Nat
  extra : List (String × String)
deriving DecidableEq

/-- A committed message document, its `createdAt` resolved by the server. -/
structure MsgDoc where
  senderId : String
  text : String
  createdAt : Nat
deriving DecidableEq

/-- One conversation's slice of the backing store. -/
structure Store where
  metaDoc : Option MetaDoc
  msgs : List MsgDoc
deriving DecidableEq

def resolveTs (now : Nat) : TsField → Nat
  | .server => now

/-- Merge-set of the metadata document: create it if absent, otherwise
overwrite only the written fields, preserving unrelated ones. -/
def applyMetaSet (w : MetaWrite) (merge : Bool) (now : Nat) (d : Option MetaDoc) : MetaDoc :=
  match d, merge with
  | some old, true =>
      { old with participants := w.participants,
                 lastMessageText := w.lastMessageText,
                 lastMessageTimestamp := resolveTs now w.lastMessageTimestamp }
  | _, _ =>
      { participants := w.participants,
        lastMessageText := w.lastMessageText,
        lastMessageTimestamp := resolveTs now w.lastMessageTimestamp,
        extra := [] }

/-- Application of both writes of the batch to the store. -/
def commitBatch (b : Batch) (now : Nat) (st : Store) : Store :=
  { metaDoc := some (applyMetaSet b.metaSet b.metaMerge now st.metaDoc),
    msgs := st.msgs ++ [{ senderId := b.msgAppend.senderId,
                          text := b.msgAppend.text,
                          createdAt := resolveTs now b.msgAppend.createdAt }] }

/-- The atomic semantics of Firestore's `writeBatch.commit()`, the external
primitive the code calls: on success both writes apply, on failure neither
does. -/
def applyOutcome (b : Batch) (now : Nat) (o : SendOutcome) (st : Store) : Store :=
  match o with
  | .ok => commitBatch b now st
  | .err _ => st

/-- Events that can interleave with an in-flight send: the input's
`onChange` (`setNewMessage`), a snapshot delivery, a snapshot error. -/
inductive UiEvent where
  | typeDraft (text : String)
  | snapshotData (docs : List Msg)
  | snapshotError (code : String)
deriving DecidableEq

def applyUiEvent (e : UiEvent) (s : ChatState) : ChatState :=
  match e with
  | .typeDraft t => { s with newMessage := t }
  | .snapshotData docs => onSnapshotData docs s
  | .snapshotError code => onSnapshotError code s

def applyUiEvents (l : List UiEvent) (s : ChatState) : ChatState :=
  l.foldl (fun st e => applyUiEvent e st) s

lemma applyUiEvent_sendError (e : UiEvent) (s : ChatState) :
    (applyUiEvent e s).sendError = s.sendError := by
  cases e with
  | typeDraft t => rfl
  | snapshotData docs => rfl
  | snapshotError code =>
    simp only [applyUiEvent, onSnapshotError]
    split <;> rfl

lemma applyUiEvent_isSending (e : UiEvent) (s : ChatState) :
    (applyUiEvent e s).isSending = s.isSending := by
  cases e with
  | typeDraft t => rfl
  | snapshotData docs => rfl
  | snapshotError code =>
    simp only [applyUiEvent, onSnapshotError]
    split <;> rfl

lemma applyUiEvents_sendError : ∀ (l : List UiEvent) (s : ChatState),
    (applyUiEvents l s).sendError = s.sendError := by
  intro l
  induction l with
  | nil => intro s; rfl
  | cons e t ih =>
    intro s
    calc (applyUiEvents (e :: t) s).sendError
        = (applyUiEvents t (applyUiEvent e s)).sendError := rfl
      _ = (applyUiEvent e s).sendError := ih _
      _ = s.sendError := applyUiEvent_sendError e s

lemma sendStart_accepted (cur partner : String) {s : ChatState}
    (hne : jsTrim s.newMessage ≠ "") (hns : s.isSending = false) :
    (sendStart cur partner s).1
      = { s with isSending := true, sendError := none, newMessage := "" } := by
  have hguard : ¬ (jsTrim s.newMessage = "" ∨ s.isSending = true) := by
    rintro (h | h)
    · exact hne h
    · rw [hns] at h
      exact Bool.false_ne_true h
  unfold sendStart
  rw [if_neg hguard]

/-- A sample message used by concrete witnesses. -/
def sampleMsg : Msg := ⟨"m1", "u1", "hi", 5⟩

/-- A sample component state with a non-blank draft, used by concrete
witnesses. -/
def sampleState : ChatState := ⟨[sampleMsg], " hi ", false, false, none, some "old"⟩

/-! ## The claims -/

/-- Claim C6: `getChatId` is symmetric and deterministic: swapping the two
participant identifiers yields the same conversation id; in particular
`getChatId "u1" "u2"` and `getChatId "u2" "u1"` both return `"u1_u2"`. -/
theorem deriveId_symmetric :
    (∀ a b : String, getChatId a b = getChatId b a)
    ∧ getChatId "u1" "u2" = "u1_u2"
    ∧ getChatId "u2" "u1" = "u1_u2" :=
  ⟨getChatId_comm, by decide, by decide⟩

/-- Claim C7, counterexample: `getChatId` is not injective in its second
argument — with first argument `"a_z_a"`, the distinct partners `"a_z"` and
`"z_a"` collide onto the same conversation id `"a_z_a_z_a"`. -/
theorem deriveId_collision :
    getChatId "a_z_a" "a_z" = getChatId "a_z_a" "z_a"
    ∧ ("a_z" : String) ≠ "z_a" :=
  ⟨by decide, by decide⟩

/-- Claim C7, amended: when none of the identifiers contains the separator
character `'_'`, `getChatId` is injective in its second argument. -/
theorem deriveId_inj2_sepfree (a b c : String)
    (ha : '_' ∉ a.data) (hb : '_' ∉ b.data) (hc : '_' ∉ c.data)
    (h : getChatId a b = getChatId a c) : b = c := by
  have hd : getChatIdL a.data b.data = getChatIdL a.data c.data := congrArg String.data h
  exact string_data_inj (getChatIdL_inj2 ha hb hc hd)

theorem deriveId_inj2_sepfree_witness :
    ('_' ∉ "u1".data ∧ '_' ∉ "u2".data
      ∧ getChatId "u1" "u2" = getChatId "u1" "u2")
    ∧ ("u2" : String) = "u2" :=
  ⟨⟨by decide, by decide, rfl⟩,
   deriveId_inj2_sepfree "u1" "u2" "u2" (by decide) (by decide) (by decide) rfl⟩

/-- Claim C2: the subscription error handler classifies every error in
exactly two ways: a `permission-denied` code yields the ready-empty state
(`messages = []`, `fetchError = none`, loading ended, nothing surfaced),
while any other code sets a user-facing `fetchError` and ends loading. -/
theorem subscription_error_classified (code : String) (s : ChatState) :
    (onSnapshotError code s).isLoading = false
    ∧ (code = "permission-denied" →
        onSnapshotError code s
          = { s with messages := [], fetchError := none, isLoading := false })
    ∧ (code ≠ "permission-denied" →
        (onSnapshotError code s).fetchError = some fetchErrorMsg) := by
  unfold onSnapshotError
  by_cases h : code = "permission-denied"
  · simp [h]
  · simp [h]

theorem subscription_error_classified_witness :
    ((onSnapshotError "permission-denied" sampleState).isLoading = false
      ∧ (("permission-denied" : String) = "permission-denied"
          ∧ onSnapshotError "permission-denied" sampleState
              = { sampleState with messages := [], fetchError := none, isLoading := false }))
    ∧ (("network" : String) ≠ "permission-denied"
        ∧ (onSnapshotError "network" sampleState).fetchError = some fetchErrorMsg) :=
  ⟨⟨(subscription_error_classified "permission-denied" sampleState).1,
    rfl, (subscription_error_classified "permission-denied" sampleState).2.1 rfl⟩,
   by decide, (subscription_error_classified "network" sampleState).2.2 (by decide)⟩

/-- Claim C9: a genuine (non-`permission-denied`) subscription error leaves
the previously delivered message list unchanged — only `fetchError` and
`isLoading` change — unlike the `permission-denied` branch, which replaces
`messages` with the empty list. -/
theorem genuine_error_preserves_messages (code : String) (s : ChatState)
    (h : code ≠ "permission-denied") :
    (onSnapshotError code s).messages = s.messages
    ∧ (onSnapshotError code s).fetchError = some fetchErrorMsg
    ∧ (onSnapshotError code s).isLoading = false
    ∧ (onSnapshotError code s).newMessage = s.newMessage
    ∧ (onSnapshotError code s).isSending = s.isSending
    ∧ (onSnapshotError code s).sendError = s.sendError
    ∧ (onSnapshotError "permission-denied" s).messages = [] := by
  unfold onSnapshotError
  simp [h]

theorem genuine_error_preserves_messages_witness :
    ("network" : String) ≠ "permission-denied"
    ∧ (onSnapshotError "network" sampleState).messages = sampleState.messages
    ∧ (onSnapshotError "permission-denied" sampleState).messages = [] :=
  ⟨by decide,
   (genuine_error_preserves_messages "network" sampleState (by decide)).1,
   (genuine_error_preserves_messages "network" sampleState (by decide)).2.2.2.2.2.2⟩

/-- Claim C4: when the trimmed draft is empty or a send is already in
flight, invoking the send handler is a complete no-op: the state is
unchanged (no error set, draft kept, in-flight flag kept) and no batch is
submitted to the store. -/
theorem send_guard_noop (cur partner : String) (s : ChatState)
    (h : jsTrim s.newMessage = "" ∨ s.isSending = true) :
    sendStart cur partner s = (s, none) := by
  unfold sendStart
  rw [if_pos h]

theorem send_guard_noop_witness :
    (jsTrim (⟨[], "   ", false, false, none, none⟩ : ChatState).newMessage = ""
      ∨ (⟨[], "   ", false, false, none, none⟩ : ChatState).isSending = true)
    ∧ sendStart "u1" "u2" (⟨[], "   ", false, false, none, none⟩ : ChatState)
        = (⟨[], "   ", false, false, none, none⟩, none) :=
  ⟨Or.inl (by decide),
   send_guard_noop "u1" "u2" ⟨[], "   ", false, false, none, none⟩ (Or.inl (by decide))⟩

/-- Claim C3: after an accepted send whose commit fails, the draft equals
byte-for-byte the trimmed text that was submitted — regardless of any events
(typing, snapshots) interleaved while the send was in flight, so the revert
overwrites rather than merges — `isSending` is false, and `sendError` is the
non-null classified message, with access-denied distinguished from other
failures. -/
theorem failed_send_restores_draft (cur partner code : String) (s : ChatState)
    (evs : List UiEvent)
    (hne : jsTrim s.newMessage ≠ "") (hns : s.isSending = false) :
    (sendFinish (jsTrim s.newMessage) (.err code)
        (applyUiEvents evs (sendStart cur partner s).1)).newMessage = jsTrim s.newMessage
    ∧ (sendFinish (jsTrim s.newMessage) (.err code)
        (applyUiEvents evs (sendStart cur partner s).1)).isSending = false
    ∧ (sendFinish (jsTrim s.newMessage) (.err code)
        (applyUiEvents evs (sendStart cur partner s).1)).sendError
        = some (classifySendError code)
    ∧ classifySendError "permission-denied" = sendAccessErrorMsg
    ∧ (code ≠ "permission-denied" → classifySendError code = sendErrorMsg)
    ∧ sendAccessErrorMsg ≠ sendErrorMsg := by
  refine ⟨rfl, rfl, rfl, rfl, ?_, by decide⟩
  intro h
  unfold classifySendError
  rw [if_neg h]

theorem failed_send_restores_draft_witness :
    (jsTrim sampleState.newMessage ≠ "" ∧ sampleState.isSending = false)
    ∧ (sendFinish (jsTrim sampleState.newMessage) (.err "network")
        (applyUiEvents [UiEvent.typeDraft "interim"]
          (sendStart "u1" "u2" sampleState).1)).newMessage = jsTrim sampleState.newMessage :=
  ⟨⟨by decide, rfl⟩,
   (failed_send_restores_draft "u1" "u2" "network" sampleState
      [UiEvent.typeDraft "interim"] (by decide) rfl).1⟩

/-- Claim C10: an accepted send clears `sendError` before attempting the
dual write, and the success path never sets it — even with arbitrary events
interleaved while the send is in flight, `sendError` is null after a
successful send. -/
theorem send_clears_sendError (cur partner : String) (s : ChatState) (evs : List UiEvent)
    (hne : jsTrim s.newMessage ≠ "") (hns : s.isSending = false) :
    (sendStart cur partner s).1.sendError = none
    ∧ (sendFinish (jsTrim s.newMessage) .ok
        (applyUiEvents evs (sendStart cur partner s).1)).sendError = none := by
  have h1 := sendStart_accepted cur partner hne hns
  constructor
  · rw [h1]
  · calc (sendFinish (jsTrim s.newMessage) .ok
          (applyUiEvents evs (sendStart cur partner s).1)).sendError
        = (applyUiEvents evs (sendStart cur partner s).1).sendError := rfl
      _ = (sendStart cur partner s).1.sendError := applyUiEvents_sendError _ _
      _ = none := by rw [h1]

theorem send_clears_sendError_witness :
    (jsTrim sampleState.newMessage ≠ "" ∧ sampleState.isSending = false)
    ∧ (sendStart "u1" "u2" sampleState).1.sendError = none
    ∧ (sendFinish (jsTrim sampleState.newMessage) .ok
        (applyUiEvents [UiEvent.snapshotData [sampleMsg]]
          (sendStart "u1" "u2" sampleState).1)).sendError = none :=
  ⟨⟨by decide, rfl⟩,
   (send_clears_sendError "u1" "u2" sampleState [UiEvent.snapshotData [sampleMsg]]
      (by decide) rfl).1,
   (send_clears_sendError "u1" "u2" sampleState [UiEvent.snapshotData [sampleMsg]]
      (by decide) rfl).2⟩

/-- Claim C8: after an accepted send whose commit succeeds, the draft
remains cleared and `isSending` is false; moreover the send path never
writes the `messages` list — neither the synchronous head of the handler nor
its resumption touches it, so only the subscription callbacks mutate the
visible history. -/
theorem successful_send_frame (cur partner : String) (s : ChatState)
    (hne : jsTrim s.newMessage ≠ "") (hns : s.isSending = false) :
    (sendFinish (jsTrim s.newMessage) .ok (sendStart cur partner s).1).newMessage = ""
    ∧ (sendFinish (jsTrim s.newMessage) .ok (sendStart cur partner s).1).isSending = false
    ∧ (sendStart cur partner s).1.messages = s.messages
    ∧ (∀ (t : String) (o : SendOutcome) (s' : ChatState),
        (sendFinish t o s').messages = s'.messages) := by
  have h1 := sendStart_accepted cur partner hne hns
  refine ⟨?_, rfl, ?_, ?_⟩
  · calc (sendFinish (jsTrim s.newMessage) .ok (sendStart cur partner s).1).newMessage
        = (sendStart cur partner s).1.newMessage := rfl
      _ = "" := by rw [h1]
  · rw [h1]
  · intro t o s'
    cases o <;> rfl

theorem successful_send_frame_witness :
    (jsTrim sampleState.newMessage ≠ "" ∧ sampleState.isSending = false)
    ∧ (sendFinish (jsTrim sampleState.newMessage) .ok
        (sendStart "u1" "u2" sampleState).1).newMessage = ""
    ∧ (sendStart "u1" "u2" sampleState).1.messages = sampleState.messages :=
  ⟨⟨by decide, rfl⟩,
   (successful_send_frame "u1" "u2" sampleState (by decide) rfl).1,
   (successful_send_frame "u1" "u2" sampleState (by decide) rfl).2.2.1⟩

/-- Claim C1: an accepted send submits exactly one batch, holding exactly
the merge-upsert of the conversation metadata (participants set to the
current pair, `lastMessageText` set to the trimmed draft, a server-assigned
`lastMessageTimestamp`) and the append of one message (the sender's id, the
trimmed draft, a server-assigned `createdAt`); committing the batch applies
both writes and a failed commit applies neither. -/
theorem send_atomic_dual_write (cur partner : String) (s : ChatState)
    (hne : jsTrim s.newMessage ≠ "") (hns : s.isSending = false) :
    (sendStart cur partner s).2
      = some (jsTrim s.newMessage,
          { metaSet := { participants := [cur, partner],
                         lastMessageText := jsTrim s.newMessage,
                         lastMessageTimestamp := .server },
            metaMerge := true,
            msgAppend := { senderId := cur,
                           text := jsTrim s.newMessage,
                           createdAt := .server } })
    ∧ (∀ (b : Batch) (now : Nat) (st : Store),
        (applyOutcome b now .ok st).metaDoc
            = some (applyMetaSet b.metaSet b.metaMerge now st.metaDoc)
        ∧ (applyOutcome b now .ok st).msgs
            = st.msgs ++ [{ senderId := b.msgAppend.senderId,
                            text := b.msgAppend.text,
                            createdAt := resolveTs now b.msgAppend.createdAt }]
        ∧ ∀ code, applyOutcome b now (.err code) st = st) := by
  constructor
  · have hguard : ¬ (jsTrim s.newMessage = "" ∨ s.isSending = true) := by
      rintro (h | h)
      · exact hne h
      · rw [hns] at h
        exact Bool.false_ne_true h
    unfold sendStart
    rw [if_neg hguard]
  · intro b now st
    exact ⟨rfl, rfl, fun _ => rfl⟩

theorem send_atomic_dual_write_witness :
    (jsTrim sampleState.newMessage ≠ "" ∧ sampleState.isSending = false)
    ∧ (sendStart "u1" "u2" sampleState).2
        = some (jsTrim sampleState.newMessage,
            { metaSet := { participants := ["u1", "u2"],
                           lastMessageText := jsTrim sampleState.newMessage,
                           lastMessageTimestamp := .server },
              metaMerge := true,
              msgAppend := { senderId := "u1",
                             text := jsTrim sampleState.newMessage,
                             createdAt := .server } })
    ∧ applyOutcome ⟨⟨["u1", "u2"], "hi", .server⟩, true, ⟨"u1", "hi", .server⟩⟩ 7
        (.err "network") ⟨none, []⟩ = ⟨none, []⟩ :=
  ⟨⟨by decide, rfl⟩,
   (send_atomic_dual_write "u1" "u2" sampleState (by decide) rfl).1,
   ((send_atomic_dual_write "u1" "u2" sampleState (by decide) rfl).2
      ⟨⟨["u1", "u2"], "hi", .server⟩, true, ⟨"u1", "hi", .server⟩⟩ 7 ⟨none, []⟩).2.2 "network"⟩

/-- Claim C5, counterexample: on a conversation-id change the effect rerun
does not reset `messages` to the empty list — a state holding one message
still holds it after the rerun's state updates, before any event for the new
conversation is delivered. -/
theorem conversation_change_keeps_messages :
    (applySubActions (effectRerun "u1_u2" "u1_u3")
        (⟨[⟨"m1", "u1", "hi", 5⟩], "", false, false, none, none⟩ : ChatState)).messages
      ≠ [] := by
  decide

/-- Claim C5, amended: on a conversation-id change the prior subscription is
cancelled before the new one is established, and `isLoading` is reset to
true and `fetchError` to null before any event for the new conversation is
applied; `messages` is left unchanged (it is only replaced wholesale by the
first delivery of the new subscription). -/
theorem conversation_change_resets (oldId newId : String) (s : ChatState) :
    applySubActions (effectRerun oldId newId) s
      = { s with isLoading := true, fetchError := none }
    ∧ (applySubActions (effectRerun oldId newId) s).messages = s.messages
    ∧ (effectRerun oldId newId).indexOf (.unsubscribe oldId)
        < (effectRerun oldId newId).indexOf (.subscribe newId) := by
  refine ⟨rfl, rfl, ?_⟩
  have h1 : (effectRerun oldId newId).indexOf (SubAction.unsubscribe oldId) = 0 :=
    List.indexOf_cons_self _ _
  have h2 : (effectRerun oldId newId).indexOf (SubAction.subscribe newId) = 3 := by
    unfold effectRerun
    rw [List.indexOf_cons_ne _ (by simp), List.indexOf_cons_ne _ (by simp),
      List.indexOf_cons_ne _ (by simp), List.indexOf_cons_self]
  rw [h1, h2]
  decide

end UNote
